import Mathlib

/-!
Verification of the password generator and strength evaluator of
`maincode.py` (class `PasswordGenerator`).  Passwords are modelled as
`List Char`; the cryptographically secure random source (`secrets.choice`,
`secrets.randbelow`) is modelled by an arbitrary stream of natural numbers
`r : Nat → Nat`, each draw reduced modulo the pool size, so every theorem
quantifies over all possible random outcomes.  Python `int` lengths are
modelled as `Int` (Python `range` of a non-positive bound is empty, matching
`Int.toNat`), and exceptions as `Except String`.
-/

namespace PasswordGen

/-- Constructor field `self.lowercase = string.ascii_lowercase`. -/
def lowercase : List Char := "abcdefghijklmnopqrstuvwxyz".toList

/-- Constructor field `self.uppercase = string.ascii_uppercase`. -/
def uppercase : List Char := "ABCDEFGHIJKLMNOPQRSTUVWXYZ".toList

/-- Constructor field `self.digits = string.digits`. -/
def digits : List Char := "0123456789".toList

/-- Constructor field `self.special_chars`. -/
def special_chars : List Char := "!@#$%^&*()_+-=[]\x7b\x7d|;:,.<>?".toList

/-- Model of `secrets.choice(pool)`: one draw of the random stream, reduced
modulo the pool size.  The default value is never used on the non-empty pools
occurring in the program. -/
def choice {α : Type} [Inhabited α] (pool : List α) (k : Nat) : α :=
  pool.getD (k % pool.length) default

/-- The character pool assembled by `generate_password` from the selected
classes; `str.replace(c, '')` is modelled by filtering `c` out. -/
def build_char_pool (use_lowercase use_uppercase use_digits use_special
    exclude_similar : Bool) : List Char :=
  (if use_lowercase then
     (if exclude_similar then
        (lowercase.filter (fun c => c != 'l')).filter (fun c => c != 'o')
      else lowercase)
   else []) ++
  (if use_uppercase then
     (if exclude_similar then
        (uppercase.filter (fun c => c != 'I')).filter (fun c => c != 'O')
      else uppercase)
   else []) ++
  (if use_digits then
     (if exclude_similar then
        (digits.filter (fun c => c != '0')).filter (fun c => c != '1')
      else digits)
   else []) ++
  (if use_special then special_chars else [])

/-- Model of `PasswordGenerator.generate_password`. -/
def generate_password (length : Int)
    (use_lowercase use_uppercase use_digits use_special exclude_similar : Bool)
    (r : Nat → Nat) : Except String (List Char) :=
  if length < 1 then
    Except.error "Password length must be at least 1"
  else if build_char_pool use_lowercase use_uppercase use_digits use_special
      exclude_similar = [] then
    Except.error "At least one character type must be selected"
  else
    Except.ok ((List.range length.toNat).map (fun i =>
      choice (build_char_pool use_lowercase use_uppercase use_digits
        use_special exclude_similar) (r i)))

theorem choice_mem {α : Type} [Inhabited α] (pool : List α) (k : Nat)
    (h : pool ≠ []) : choice pool k ∈ pool := by
  have hlen : 0 < pool.length := List.length_pos.mpr h
  have hk : k % pool.length < pool.length := Nat.mod_lt _ hlen
  unfold choice
  rw [List.getD_eq_getElem pool default hk]
  exact List.getElem_mem hk

theorem build_char_pool_eq_nil_iff (ul uu ud us ex : Bool) :
    build_char_pool ul uu ud us ex = [] ↔
      (ul = false ∧ uu = false ∧ ud = false ∧ us = false) := by
  cases ul <;> cases uu <;> cases ud <;> cases us <;> cases ex <;> decide

theorem build_char_pool_exclude (ul uu ud us : Bool) :
    ∀ c ∈ build_char_pool ul uu ud us true,
      c ≠ 'l' ∧ c ≠ 'o' ∧ c ≠ 'I' ∧ c ≠ 'O' ∧ c ≠ '0' ∧ c ≠ '1' := by
  cases ul <;> cases uu <;> cases ud <;> cases us <;> decide

/-- Claim C1: for every request with length ≥ 1 and at least one character
class selected, `generate_password` succeeds with a string of exactly the
requested length whose every character belongs to the assembled
(post-exclusion) pool; with `exclude_similar = true` the result never
contains `l`, `o`, `I`, `O`, `0`, `1`. -/
theorem generate_password_spec (length : Int)
    (ul uu ud us ex : Bool) (r : Nat → Nat)
    (hlen : 1 ≤ length)
    (hcls : ul = true ∨ uu = true ∨ ud = true ∨ us = true) :
    ∃ pw : List Char,
      generate_password length ul uu ud us ex r = Except.ok pw ∧
      (pw.length : Int) = length ∧
      (∀ c ∈ pw, c ∈ build_char_pool ul uu ud us ex) ∧
      (ex = true → ∀ c ∈ pw,
        c ≠ 'l' ∧ c ≠ 'o' ∧ c ≠ 'I' ∧ c ≠ 'O' ∧ c ≠ '0' ∧ c ≠ '1') := by
  have hne : build_char_pool ul uu ud us ex ≠ [] := by
    intro h
    rcases (build_char_pool_eq_nil_iff ul uu ud us ex).mp h with ⟨h1, h2, h3, h4⟩
    rcases hcls with h | h | h | h <;> simp_all
  have h1 : ¬ length < 1 := not_lt.mpr hlen
  refine ⟨(List.range length.toNat).map (fun i =>
    choice (build_char_pool ul uu ud us ex) (r i)), ?_, ?_, ?_, ?_⟩
  · unfold generate_password
    rw [if_neg h1, if_neg hne]
  · simp only [List.length_map, List.length_range]
    exact Int.toNat_of_nonneg (by omega)
  · intro c hc
    obtain ⟨i, _, rfl⟩ := List.mem_map.mp hc
    exact choice_mem _ _ hne
  · intro hex c hc
    obtain ⟨i, _, rfl⟩ := List.mem_map.mp hc
    subst hex
    exact build_char_pool_exclude ul uu ud us _ (choice_mem _ _ hne)

/-- Witness for C1 at a concrete request. -/
theorem generate_password_spec_witness :
    ∃ pw : List Char,
      generate_password 3 true true true true true (fun _ => 0) = Except.ok pw ∧
      (pw.length : Int) = 3 ∧
      (∀ c ∈ pw, c ∈ build_char_pool true true true true true) ∧
      (true = true → ∀ c ∈ pw,
        c ≠ 'l' ∧ c ≠ 'o' ∧ c ≠ 'I' ∧ c ≠ 'O' ∧ c ≠ '0' ∧ c ≠ '1') :=
  generate_password_spec 3 true true true true true (fun _ => 0)
    (by decide) (Or.inl rfl)

/-- Claim C2: `generate_password` fails exactly when the length is ≤ 0 or all
four class flags are false; every other request succeeds without error. -/
theorem generate_password_error_iff (length : Int)
    (ul uu ud us ex : Bool) (r : Nat → Nat) :
    (∃ e, generate_password length ul uu ud us ex r = Except.error e) ↔
      (length ≤ 0 ∨ (ul = false ∧ uu = false ∧ ud = false ∧ us = false)) := by
  unfold generate_password
  by_cases h1 : length < 1
  · rw [if_pos h1]
    constructor
    · intro _
      exact Or.inl (by omega)
    · intro _
      exact ⟨_, rfl⟩
  · rw [if_neg h1]
    by_cases h2 : build_char_pool ul uu ud us ex = []
    · rw [if_pos h2]
      constructor
      · intro _
        exact Or.inr ((build_char_pool_eq_nil_iff ul uu ud us ex).mp h2)
      · intro _
        exact ⟨_, rfl⟩
    · rw [if_neg h2]
      constructor
      · rintro ⟨e, he⟩
        exact Except.noConfusion he
      · rintro (hle | hall)
        · exact absurd (by omega : length < 1) h1
        · exact absurd ((build_char_pool_eq_nil_iff ul uu ud us ex).mpr hall) h2

/-- Model of `PasswordGenerator.generate_pin`. -/
def generate_pin (length : Int) (r : Nat → Nat) : List Char :=
  (List.range length.toNat).map (fun i => choice digits (r i))

/-- Model of `PasswordGenerator.generate_alphabetic_password`: lowercase then
uppercase letters are pooled; an empty selection silently falls back to the
lowercase pool. -/
def generate_alphabetic_password (length : Int)
    (use_uppercase use_lowercase : Bool) (r : Nat → Nat) : List Char :=
  let char_pool : List Char :=
    (if use_lowercase then lowercase else []) ++
    (if use_uppercase then uppercase else [])
  let pool : List Char := if char_pool = [] then lowercase else char_pool
  (List.range length.toNat).map (fun i => choice pool (r i))

/-- The fixed word list of `generate_memorable_password`. -/
def words : List (List Char) :=
  (["apple", "beach", "cloud", "dance", "eagle", "flame", "green", "house",
    "island", "jungle", "knight", "lemon", "music", "night", "ocean", "peace",
    "quiet", "river", "stone", "tiger", "unity", "voice", "water", "youth",
    "brave", "charm", "dream", "fairy", "giant", "happy", "magic", "noble",
    "quick", "smart", "trust", "vivid", "wisdom", "bright", "calm", "fresh",
    "storm", "lunar", "solar", "crystal", "golden", "silver", "forest",
    "mountain"] : List String).map String.toList

/-- Python `str.capitalize`: first character uppercased, the rest
lowercased. -/
def str_capitalize (w : List Char) : List Char :=
  match w with
  | [] => []
  | c :: cs => Char.toUpper c :: cs.map Char.toLower

/-- Model of `PasswordGenerator.generate_memorable_password`;
`secrets.randbelow(100)` is modelled by `k % 100` for an arbitrary `k`. -/
def generate_memorable_password (num_words : Int) (separator : List Char)
    (capitalize_words : Bool) (r : Nat → Nat) (k : Nat) : List Char :=
  let selected_words :=
    (List.range num_words.toNat).map (fun i => choice words (r i))
  let final_words :=
    if capitalize_words then selected_words.map str_capitalize
    else selected_words
  List.intercalate separator final_words ++ (Nat.repr (k % 100)).toList

/-- Result record of `check_password_strength`. -/
structure StrengthReport where
  strength : String
  color : String
  score : Int
  max_score : Int
  feedback : List String
  has_lowercase : Bool
  has_uppercase : Bool
  has_digits : Bool
  has_special : Bool
  length : Nat

/-- Python `any(c.islower() for c in password)`. -/
def has_lower (pw : List Char) : Bool := pw.any Char.isLower

/-- Python `any(c.isupper() for c in password)`. -/
def has_upper (pw : List Char) : Bool := pw.any Char.isUpper

/-- Python `any(c.isdigit() for c in password)`. -/
def has_digit (pw : List Char) : Bool := pw.any Char.isDigit

/-- Python `any(c in self.special_chars for c in password)`. -/
def has_special (pw : List Char) : Bool :=
  pw.any (fun c => decide (c ∈ special_chars))

/-- Length contribution of the score: the `if len >= 16 / 12 / 8` chain. -/
def length_score (n : Nat) : Int :=
  if 16 ≤ n then 3 else if 12 ≤ n then 2 else if 8 ≤ n then 1 else 0

/-- `char_types = sum([has_lower, has_upper, has_digit, has_special])`. -/
def char_types (pw : List Char) : Int :=
  (if has_lower pw then 1 else 0) + (if has_upper pw then 1 else 0) +
  (if has_digit pw then 1 else 0) + (if has_special pw then 1 else 0)

/-- The blocklist `['password', '123456', 'qwerty', 'abc123']`. -/
def common_passwords : List (List Char) :=
  (["password", "123456", "qwerty", "abc123"] : List String).map String.toList

/-- Python `password.lower() in ['password', '123456', 'qwerty', 'abc123']`. -/
def is_common (pw : List Char) : Bool :=
  decide (pw.map Char.toLower ∈ common_passwords)

/-- The running score after the length and composition checks. -/
def base_score (pw : List Char) : Int := length_score pw.length + char_types pw

/-- The score after the common-pattern penalty `score = max(0, score - 3)`. -/
def final_score (pw : List Char) : Int :=
  if is_common pw then max 0 (base_score pw - 3) else base_score pw

/-- The strength label chain on the final score. -/
def strength_label (s : Int) : String :=
  if 7 ≤ s then "Very Strong"
  else if 5 ≤ s then "Strong"
  else if 3 ≤ s then "Medium"
  else "Weak"

/-- The ANSI color chain on the final score. -/
def strength_color (s : Int) : String :=
  if 7 ≤ s then "\x1b[92m"
  else if 5 ≤ s then "\x1b[93m"
  else if 3 ≤ s then "\x1b[94m"
  else "\x1b[91m"

/-- The feedback entries, in the order the Python code appends them. -/
def feedback_list (pw : List Char) : List String :=
  (if pw.length < 8 then ["Password should be at least 8 characters long"]
   else []) ++
  (if char_types pw < 3 then
    ["Use a mix of uppercase, lowercase, numbers, and special characters"]
   else []) ++
  (if is_common pw then ["Avoid common password patterns"] else [])

/-- Model of `PasswordGenerator.check_password_strength`. -/
def check_password_strength (password : List Char) : StrengthReport :=
  { strength := strength_label (final_score password)
    color := strength_color (final_score password)
    score := final_score password
    max_score := 8
    feedback := feedback_list password
    has_lowercase := has_lower password
    has_uppercase := has_upper password
    has_digits := has_digit password
    has_special := has_special password
    length := password.length }

/-- Claim C3: the score is the length contribution (+3 for length ≥ 16, +2
for ≥ 12, +1 for ≥ 8, else 0) plus one point per composition class present,
the short-length feedback appears exactly when the length is below 8, and the
mix recommendation appears exactly when fewer than 3 classes are present. -/
theorem check_password_strength_score_formula (pw : List Char) :
    ((check_password_strength pw).score =
       (if is_common pw then
          max 0 ((if 16 ≤ pw.length then (3 : Int)
                  else if 12 ≤ pw.length then 2
                  else if 8 ≤ pw.length then 1 else 0) +
                 ((if has_lower pw then (1 : Int) else 0) +
                  (if has_upper pw then 1 else 0) +
                  (if has_digit pw then 1 else 0) +
                  (if has_special pw then 1 else 0)) - 3)
        else
          (if 16 ≤ pw.length then (3 : Int)
           else if 12 ≤ pw.length then 2
           else if 8 ≤ pw.length then 1 else 0) +
          ((if has_lower pw then (1 : Int) else 0) +
           (if has_upper pw then 1 else 0) +
           (if has_digit pw then 1 else 0) +
           (if has_special pw then 1 else 0)))) ∧
    ("Password should be at least 8 characters long" ∈
        (check_password_strength pw).feedback ↔ pw.length < 8) ∧
    ("Use a mix of uppercase, lowercase, numbers, and special characters" ∈
        (check_password_strength pw).feedback ↔ char_types pw < 3) := by
  refine ⟨rfl, ?_, ?_⟩ <;>
  · simp only [check_password_strength, feedback_list]
    by_cases h1 : pw.length < 8 <;> by_cases h2 : char_types pw < 3 <;>
      by_cases h3 : is_common pw = true <;>
      simp [h1, h2, h3]

/-- Claim C4: the common-pattern feedback appears exactly when the lowercased
password is on the blocklist, in which case 3 is subtracted from the running
score and floored at 0; the label follows the ≥7 / ≥5 / ≥3 thresholds; and
for "password" the penalty fires with final score 0. -/
theorem check_password_strength_penalty_label (pw : List Char) :
    ("Avoid common password patterns" ∈ (check_password_strength pw).feedback ↔
        is_common pw = true) ∧
    ((check_password_strength pw).score =
       if is_common pw then max 0 (length_score pw.length + char_types pw - 3)
       else length_score pw.length + char_types pw) ∧
    ((check_password_strength pw).strength =
       if 7 ≤ (check_password_strength pw).score then "Very Strong"
       else if 5 ≤ (check_password_strength pw).score then "Strong"
       else if 3 ≤ (check_password_strength pw).score then "Medium"
       else "Weak") ∧
    is_common ("password".toList) = true ∧
    (check_password_strength ("password".toList)).score = 0 ∧
    "Avoid common password patterns" ∈
      (check_password_strength ("password".toList)).feedback := by
  refine ⟨?_, rfl, rfl, by decide, by decide, by decide⟩
  simp only [check_password_strength, feedback_list]
  by_cases h1 : pw.length < 8 <;> by_cases h2 : char_types pw < 3 <;>
    by_cases h3 : is_common pw = true <;>
    simp [h1, h2, h3]

theorem char_types_eq_four (pw : List Char) (h : char_types pw = 4) :
    has_lower pw = true ∧ has_upper pw = true ∧ has_digit pw = true ∧
    has_special pw = true := by
  unfold char_types at h
  by_cases h1 : has_lower pw = true <;> by_cases h2 : has_upper pw = true <;>
    by_cases h3 : has_digit pw = true <;>
    by_cases h4 : has_special pw = true <;>
    simp [h1, h2, h3, h4] at h ⊢

/-- Claim C5: the reported score never exceeds 7 while `max_score` is 8, and
the label "Very Strong" occurs only for passwords of length ≥ 16 with all
four composition classes present. -/
theorem check_password_strength_bounds (pw : List Char) :
    (check_password_strength pw).score ≤ 7 ∧
    (check_password_strength pw).max_score = 8 ∧
    ((check_password_strength pw).strength = "Very Strong" →
      16 ≤ pw.length ∧ has_lower pw = true ∧ has_upper pw = true ∧
      has_digit pw = true ∧ has_special pw = true) := by
  have hl : length_score pw.length ≤ 3 := by
    unfold length_score
    split_ifs <;> omega
  have hl0 : 0 ≤ length_score pw.length := by
    unfold length_score
    split_ifs <;> omega
  have hc : char_types pw ≤ 4 := by
    unfold char_types
    split_ifs <;> omega
  have hc0 : 0 ≤ char_types pw := by
    unfold char_types
    split_ifs <;> omega
  have hbase : base_score pw ≤ 7 := by
    unfold base_score
    omega
  have hbase0 : 0 ≤ base_score pw := by
    unfold base_score
    omega
  have hfin : final_score pw ≤ 7 := by
    unfold final_score
    split_ifs
    · exact max_le (by omega) (by omega)
    · exact hbase
  refine ⟨hfin, rfl, ?_⟩
  intro hvs
  have h7 : 7 ≤ final_score pw := by
    by_contra h7
    push_neg at h7
    have hne : strength_label (final_score pw) ≠ "Very Strong" := by
      unfold strength_label
      rw [if_neg (by omega)]
      split_ifs <;> decide
    exact hne hvs
  have hfb : final_score pw ≤ base_score pw := by
    unfold final_score
    split_ifs
    · exact max_le hbase0 (by omega)
    · exact le_refl _
  have hb7 : 7 ≤ base_score pw := le_trans h7 hfb
  have h16 : 16 ≤ pw.length := by
    by_contra h16
    push_neg at h16
    have hls : length_score pw.length ≤ 2 := by
      unfold length_score
      rw [if_neg (by omega)]
      split_ifs <;> omega
    unfold base_score at hb7
    omega
  have hct : char_types pw = 4 := by
    unfold base_score at hb7
    omega
  obtain ⟨ha, hb, hcc, hd⟩ := char_types_eq_four pw hct
  exact ⟨h16, ha, hb, hcc, hd⟩

/-- Witness for C5 at a concrete very strong password. -/
theorem check_password_strength_bounds_witness :
    (check_password_strength ("Aa1!aaaaaaaaaaaa".toList)).strength =
        "Very Strong" ∧
    (16 ≤ ("Aa1!aaaaaaaaaaaa".toList).length ∧
     has_lower ("Aa1!aaaaaaaaaaaa".toList) = true ∧
     has_upper ("Aa1!aaaaaaaaaaaa".toList) = true ∧
     has_digit ("Aa1!aaaaaaaaaaaa".toList) = true ∧
     has_special ("Aa1!aaaaaaaaaaaa".toList) = true) :=
  ⟨by decide,
   (check_password_strength_bounds ("Aa1!aaaaaaaaaaaa".toList)).2.2 (by decide)⟩

/-- Claim C6: for every length n ≥ 1, the alphabetic generator called with
both case flags false raises no error and returns a string of length n made
only of lowercase letters (silent fallback to the lowercase pool). -/
theorem generate_alphabetic_fallback (n : Nat) (hn : 1 ≤ n) (r : Nat → Nat) :
    (generate_alphabetic_password (Int.ofNat n) false false r).length = n ∧
    ∀ c ∈ generate_alphabetic_password (Int.ofNat n) false false r,
      c ∈ lowercase := by
  have hpool : generate_alphabetic_password (Int.ofNat n) false false r =
      (List.range n).map (fun i => choice lowercase (r i)) := by
    simp [generate_alphabetic_password]
  rw [hpool]
  constructor
  · simp
  · intro c hc
    obtain ⟨i, _, rfl⟩ := List.mem_map.mp hc
    exact choice_mem lowercase (r i) (by decide)

/-- Witness for C6 at a concrete length. -/
theorem generate_alphabetic_fallback_witness :
    (generate_alphabetic_password (Int.ofNat 5) false false
        (fun _ => 7)).length = 5 ∧
    ∀ c ∈ generate_alphabetic_password (Int.ofNat 5) false false (fun _ => 7),
      c ∈ lowercase :=
  generate_alphabetic_fallback 5 (by decide) (fun _ => 7)

/-- Claim C7: for every word count ≥ 1, separator and capitalize flag, the
memorable generator returns that many words from the fixed word list
(capitalized when the flag is set), joined by the separator, followed
directly by the decimal representation of a number in [0, 99]. -/
theorem generate_memorable_spec (n : Nat) (hn : 1 ≤ n) (sep : List Char)
    (cap : Bool) (r : Nat → Nat) (k : Nat) :
    ∃ ws : List (List Char), ∃ num : Nat,
      ws.length = n ∧
      (∀ w ∈ ws, ∃ w0 ∈ words, w = (if cap then str_capitalize w0 else w0)) ∧
      num ≤ 99 ∧
      generate_memorable_password (Int.ofNat n) sep cap r k =
        List.intercalate sep ws ++ (Nat.repr num).toList := by
  have hwords : words ≠ [] := by decide
  cases cap
  · refine ⟨(List.range n).map (fun i => choice words (r i)), k % 100,
      ?_, ?_, ?_, ?_⟩
    · simp
    · intro w hw
      obtain ⟨i, _, rfl⟩ := List.mem_map.mp hw
      exact ⟨choice words (r i), choice_mem words (r i) hwords, by simp⟩
    · omega
    · rfl
  · refine ⟨((List.range n).map (fun i => choice words (r i))).map
      str_capitalize, k % 100, ?_, ?_, ?_, ?_⟩
    · simp
    · intro w hw
      obtain ⟨w1, hw1, rfl⟩ := List.mem_map.mp hw
      obtain ⟨i, _, rfl⟩ := List.mem_map.mp hw1
      exact ⟨choice words (r i), choice_mem words (r i) hwords, by simp⟩
    · omega
    · rfl

/-- Witness for C7 at a concrete request. -/
theorem generate_memorable_spec_witness :
    ∃ ws : List (List Char), ∃ num : Nat,
      ws.length = 2 ∧
      (∀ w ∈ ws, ∃ w0 ∈ words, w = (if true then str_capitalize w0 else w0)) ∧
      num ≤ 99 ∧
      generate_memorable_password (Int.ofNat 2) ("-".toList) true
          (fun _ => 0) 5 =
        List.intercalate ("-".toList) ws ++ (Nat.repr num).toList :=
  generate_memorable_spec 2 (by decide) ("-".toList) true (fun _ => 0) 5

/-- Claim C8: for every length n, the PIN generator raises no error and
returns a string of length n containing only the digits 0-9. -/
theorem generate_pin_spec (n : Nat) (r : Nat → Nat) :
    (generate_pin (Int.ofNat n) r).length = n ∧
    ∀ c ∈ generate_pin (Int.ofNat n) r, c ∈ digits := by
  constructor
  · simp [generate_pin]
  · intro c hc
    simp only [generate_pin] at hc
    obtain ⟨i, _, rfl⟩ := List.mem_map.mp hc
    exact choice_mem digits (r i) (by decide)

/-- Claim C9: the strength checker is total, reports the raw length of its
input, and on the empty string reports length 0, all four composition flags
false, and the short-length feedback. -/
theorem check_password_strength_total (pw : List Char) :
    (check_password_strength pw).length = pw.length ∧
    (check_password_strength []).length = 0 ∧
    (check_password_strength []).has_lowercase = false ∧
    (check_password_strength []).has_uppercase = false ∧
    (check_password_strength []).has_digits = false ∧
    (check_password_strength []).has_special = false ∧
    "Password should be at least 8 characters long" ∈
      (check_password_strength []).feedback :=
  ⟨rfl, by decide, by decide, by decide, by decide, by decide, by decide⟩

/-- Claim C10: for every non-positive length, the PIN and alphabetic
generators return the empty string without error, while `generate_password`
raises for such a length. -/
theorem nonpositive_length_behavior (n : Int) (hn : n ≤ 0) (uu ul : Bool)
    (r : Nat → Nat) :
    generate_pin n r = [] ∧
    generate_alphabetic_password n uu ul r = [] ∧
    ∃ e, generate_password n true true true true false r = Except.error e := by
  have h0 : n.toNat = 0 := Int.toNat_of_nonpos hn
  refine ⟨?_, ?_, ?_⟩
  · simp [generate_pin, h0]
  · simp [generate_alphabetic_password, h0]
  · refine ⟨"Password length must be at least 1", ?_⟩
    unfold generate_password
    rw [if_pos (by omega)]

/-- Witness for C10 at a concrete negative length. -/
theorem nonpositive_length_behavior_witness :
    generate_pin (-3) (fun _ => 1) = [] ∧
    generate_alphabetic_password (-3) true false (fun _ => 1) = [] ∧
    ∃ e, generate_password (-3) true true true true false (fun _ => 1) =
      Except.error e :=
  nonpositive_length_behavior (-3) (by decide) true false (fun _ => 1)

end PasswordGen
